import Mathlib

/-!
Verification of the oxrr browser-launcher (src/index.js, with the
TypeScript original in src/unnamed/part_000) against its specification.

The program is shallowly embedded: the host environment (filesystem
existence checks and which lookups) is a record of pure functions, the
OS tag is the string returned by platform(), and each program function
becomes a pure Lean function returning the log lines it would print and
the command string it would hand to exec (at most one spawn happens per
run, so an Option String suffices).
-/

namespace Oxrr

/-- A browser descriptor: display name plus locator (`cmd` in the source),
mirroring the entries of the `BROWSERS` tables. -/
structure Browser where
  name : String
  cmd : String
deriving DecidableEq, Repr

/-- Host environment as observed by the program: `fsExists` models
`existsSync(path)`, and `execWhich` models running the which command via
`execSync`, which either throws (modelled as `Except.error`) or yields stdout. -/
structure HostState where
  fsExists : String → Bool
  execWhich : String → Except Unit String

/-- JavaScript `a.includes(b)`: contiguous substring test, case sensitive. -/
def strContains (s sub : String) : Bool :=
  decide (sub.toList <:+: s.toList)

/-- JavaScript `a.startsWith(b)`: prefix test, case sensitive. -/
def strStartsWith (s pre : String) : Bool :=
  pre.data.isPrefixOf s.data

/-- The `BROWSERS.windows` table of src/index.js. -/
def jsWindowsBrowsers : List Browser :=
  [ ⟨"Chrome", "C:\\Program Files\\Google\\Chrome\\Application\\chrome.exe"⟩,
    ⟨"Firefox", "C:\\Program Files\\Mozilla Firefox\\firefox.exe"⟩,
    ⟨"Edge", "C:\\Program Files (x86)\\Microsoft\\Edge\\Application\\msedge.exe"⟩,
    ⟨"Brave", "C:\\Program Files\\BraveSoftware\\Brave-Browser\\Application\\brave.exe"⟩,
    ⟨"Vivaldi", "C:\\Program Files\\Vivaldi\\Application\\vivaldi.exe"⟩,
    ⟨"Opera", "C:\\Program Files\\Opera\\launcher.exe"⟩ ]

/-- The `BROWSERS.darwin` table of src/index.js. -/
def jsDarwinBrowsers : List Browser :=
  [ ⟨"Chrome", "/Applications/Google Chrome.app"⟩,
    ⟨"Safari", "/Applications/Safari.app"⟩,
    ⟨"Firefox", "/Applications/Firefox.app"⟩,
    ⟨"Brave", "/Applications/Brave Browser.app"⟩,
    ⟨"Edge", "/Applications/Microsoft Edge.app"⟩,
    ⟨"Vivaldi", "/Applications/Vivaldi.app"⟩,
    ⟨"Opera", "/Applications/Opera.app"⟩ ]

/-- The `BROWSERS.linux` table of src/index.js. -/
def jsLinuxBrowsers : List Browser :=
  [ ⟨"Chromium", "chromium"⟩,
    ⟨"Firefox", "firefox"⟩,
    ⟨"Chrome", "google-chrome"⟩,
    ⟨"Brave", "brave-browser"⟩,
    ⟨"Vivaldi", "vivaldi"⟩,
    ⟨"Opera", "opera"⟩ ]

/-- The `BROWSERS.linux` table of src/unnamed/part_000 (the TypeScript
original); note Chrome precedes Firefox here, unlike in src/index.js. -/
def tsLinuxBrowsers : List Browser :=
  [ ⟨"Chromium", "chromium"⟩,
    ⟨"Chrome", "google-chrome"⟩,
    ⟨"Firefox", "firefox"⟩,
    ⟨"Brave", "brave-browser"⟩,
    ⟨"Vivaldi", "vivaldi"⟩,
    ⟨"Opera", "opera"⟩ ]

/-- The `preferredBrowsers` map of src/index.js, as a function of the OS
name; `preferredBrowsers[osName] || []` yields `[]` on any other key. -/
def jsPreferredBrowsers (osName : String) : List String :=
  if osName = "win32" then ["Chrome", "Firefox", "Edge", "Brave", "Vivaldi", "Opera"]
  else if osName = "darwin" then ["Chrome", "Safari", "Firefox", "Edge", "Brave", "Vivaldi", "Opera"]
  else if osName = "linux" then ["Chromium", "Firefox", "Brave", "Chrome", "Vivaldi", "Opera"]
  else []

/-- The `preferredBrowsers` map of src/unnamed/part_000; its `linux` entry
orders Chrome before Firefox, unlike src/index.js. -/
def tsPreferredBrowsers (osName : String) : List String :=
  if osName = "win32" then ["Chrome", "Firefox", "Edge", "Brave", "Vivaldi", "Opera"]
  else if osName = "darwin" then ["Chrome", "Safari", "Firefox", "Edge", "Brave", "Vivaldi", "Opera"]
  else if osName = "linux" then ["Chromium", "Chrome", "Firefox", "Brave", "Vivaldi", "Opera"]
  else []

/-- The per-OS tables a build of the program carries; src/index.js and
src/unnamed/part_000 differ only in the `linux` catalog and preference
entries, so both builds are instances of the same table-parametrised code. -/
structure Tables where
  winCat : List Browser
  macCat : List Browser
  linCat : List Browser
  prefs : String → List String

/-- Tables of the compiled program src/index.js. -/
def jsTables : Tables :=
  { winCat := jsWindowsBrowsers, macCat := jsDarwinBrowsers,
    linCat := jsLinuxBrowsers, prefs := jsPreferredBrowsers }

/-- Tables of the TypeScript source src/unnamed/part_000. -/
def tsTables : Tables :=
  { winCat := jsWindowsBrowsers, macCat := jsDarwinBrowsers,
    linCat := tsLinuxBrowsers, prefs := tsPreferredBrowsers }

/-- JavaScript `s.trim()`: drop whitespace from both ends. -/
def strTrim (s : String) : String :=
  ⟨((s.data.dropWhile Char.isWhitespace).reverse.dropWhile Char.isWhitespace).reverse⟩

/-- `which(command)`: runs `which` via `execSync`; a thrown error is caught
and becomes `null`, and an empty trimmed output also becomes `null`
(`.trim() || null`). Returns the trimmed output otherwise. -/
def which (h : HostState) (command : String) : Option String :=
  match h.execWhich command with
  | .error _ => none
  | .ok out => if strTrim out = "" then none else some (strTrim out)

/-- The accumulation loop of `detectBrowsers`: walk the catalog in order
and push each browser whose probe succeeds. -/
def detectLoop (probe : Browser → Bool) : List Browser → List Browser
  | [] => []
  | b :: rest => if probe b then b :: detectLoop probe rest else detectLoop probe rest

/-- `detectBrowsers()` of the table-parametrised program: returns the log
lines it prints together with its return value, which is `none` when the
function hits the `Unsupported OS` branch and returns `undefined`. -/
def detectBrowsersT (T : Tables) (h : HostState) (os : String) :
    List String × Option (List Browser) :=
  if os = "win32" then ([], some (detectLoop (fun b => h.fsExists b.cmd) T.winCat))
  else if os = "darwin" then ([], some (detectLoop (fun b => h.fsExists b.cmd) T.macCat))
  else if os = "linux" then ([], some (detectLoop (fun b => (which h b.cmd).isSome) T.linCat))
  else (["Unsupported OS"], none)

/-- `detectBrowsers()` of src/index.js. -/
def detectBrowsers (h : HostState) (os : String) : List String × Option (List Browser) :=
  detectBrowsersT jsTables h os

/-- The URL normalisation line of `launchApp`:
`url.startsWith("http") ? url : url.startsWith("localhost") ? http://url : https://url`. -/
def normalizeUrl (url : String) : String :=
  if strStartsWith url "http" then url
  else if strStartsWith url "localhost" then "http://" ++ url
  else "https://" ++ url

/-- The browser-selection step of `launchApp` (lines 86-92 of
src/index.js): the first preference-list name detected wins, else the
first detected browser; `none` when nothing was detected. -/
def selectBrowser (browsersForOS : List String) (detected : List Browser) : Option Browser :=
  match browsersForOS.find? (fun name => detected.any (fun b => b.name = name)) with
  | some preferredBrowser => detected.find? (fun b => b.name = preferredBrowser)
  | none => detected.head?

/-- The command string handed to `exec` once a browser was selected
(lines 93-109 of src/index.js): width and height are the fixed 960 and 800. -/
def mkLaunchCmd (os : String) (b : Browser) (url : String) : String :=
  if os ≠ "darwin" then
    if strContains b.cmd "Firefox" then
      "\"" ++ b.cmd ++ "\" \"" ++ url ++ "\" --width=960 --height=800"
    else
      "\"" ++ b.cmd ++ "\" --app=\"" ++ url ++ "\" --window-size=960,800 --new-window --user-data-dir=\"/tmp/temp-profile\""
  else
    if strContains b.cmd "Firefox" then
      "open -na \"" ++ b.cmd ++ "\" \"" ++ url ++ "\" --width=960 --height=800"
    else
      "open -na \"" ++ b.cmd ++ "\" --args --app=\"" ++ url ++ "\" --new-window --user-data-dir=\"/tmp/temp-profile\""

/-- The `tryDefaultBrowser` block of `launchApp` (lines 114-124): the OS
default-open command, or the unsupported log message and no spawn. -/
def defaultBrowserBranch (os url : String) : List String × Option String :=
  if os = "win32" then ([], some ("start \"\" \"" ++ url ++ "\""))
  else if os = "darwin" then ([], some ("open \"" ++ url ++ "\""))
  else if os = "linux" then ([], some ("xdg-open \"" ++ url ++ "\""))
  else (["Unsupported OS for launching app!"], none)

/-- Observable outcome of one `launchApp` run: the log lines printed, in
order, and the command string passed to `exec` (`none` if no spawn). -/
structure LaunchResult where
  logs : List String
  spawned : Option String
deriving DecidableEq, Repr

/-- `launchApp(url)` of the table-parametrised program. A JavaScript
subtlety is preserved: `if (detectedBrowsers)` is a truthiness test, so an
empty detected array still enters the selection block (arrays are truthy),
while the `undefined` from an unsupported OS skips it, leaving
`tryDefaultBrowser` false so that the fallback block never runs. -/
def launchAppT (T : Tables) (h : HostState) (os url0 : String) : LaunchResult :=
  let (dlogs, detectedBrowsers) := detectBrowsersT T h os
  let log1 := "Detected OS: " ++ os
  let log2 := "Detected browsers: " ++
    (match detectedBrowsers with
     | some l => String.intercalate ", " (l.map Browser.name)
     | none => "None")
  let url := normalizeUrl url0
  match detectedBrowsers with
  | none =>
      { logs := dlogs ++ [log1, log2], spawned := none }
  | some detected =>
      match selectBrowser (T.prefs os) detected with
      | some browserToUse =>
          { logs := dlogs ++ [log1, log2], spawned := some (mkLaunchCmd os browserToUse url) }
      | none =>
          let (flogs, fcmd) := defaultBrowserBranch os url
          { logs := dlogs ++ [log1, log2] ++ flogs, spawned := fcmd }

/-- `launchApp(url)` of src/index.js. -/
def launchApp (h : HostState) (os url : String) : LaunchResult :=
  launchAppT jsTables h os url

/-- Outcome of `start()`: either the usage error printed to stderr via
`console.error` together with the `process.exit` code, or a launch. -/
inductive StartResult where
  | usageError (stderrMsg : String) (exitCode : Nat)
  | launched (r : LaunchResult)
deriving DecidableEq, Repr

/-- `start()` of src/index.js: `argv.slice(2)` keeps the positional
arguments; with none, print the usage message and exit 1, else launch. -/
def start (h : HostState) (os : String) (argv : List String) : StartResult :=
  match argv.drop 2 with
  | [] => .usageError "No URL provided! Usage: npx oxr <url>" 1
  | u :: _ => .launched (launchApp h os u)

/-- A host on which every probe fails: no filesystem paths, no PATH hits. -/
def hostNone : HostState :=
  { fsExists := fun _ => false, execWhich := fun _ => .error () }

/-- A Linux host on which only `firefox` resolves on PATH. -/
def hostOnlyFirefox : HostState :=
  { fsExists := fun _ => false,
    execWhich := fun c => if c = "firefox" then .ok "/usr/bin/firefox\n" else .error () }

/-- A Linux host on which `firefox` and `google-chrome` resolve on PATH. -/
def hostFirefoxChrome : HostState :=
  { fsExists := fun _ => false,
    execWhich := fun c =>
      if c = "firefox" then .ok "/usr/bin/firefox\n"
      else if c = "google-chrome" then .ok "/usr/bin/google-chrome\n"
      else .error () }

/-- The static catalog detectBrowsers consults for an OS tag. -/
def catalogOf (T : Tables) (os : String) : List Browser :=
  if os = "win32" then T.winCat
  else if os = "darwin" then T.macCat
  else if os = "linux" then T.linCat
  else []

/-- The per-OS installation probe of detectBrowsers: existsSync on the
locator path for win32 and darwin, a which lookup on Linux. -/
def probeOf (h : HostState) (os : String) (b : Browser) : Bool :=
  if os = "linux" then (which h b.cmd).isSome else h.fsExists b.cmd

/-- The accumulation loop of detectBrowsers is List.filter. -/
theorem detectLoop_eq_filter (p : Browser → Bool) (l : List Browser) :
    detectLoop p l = l.filter p := by
  induction l with
  | nil => rfl
  | cons b rest ih => by_cases hp : p b <;> simp [detectLoop, hp, ih]

/-- A log line with the fixed prefix never equals the unsupported-fallback message. -/
theorem detectedOsLog_ne (os : String) :
    "Detected OS: " ++ os ≠ "Unsupported OS for launching app!" := by
  intro heq
  have h1 : ("Detected OS: " ++ os).data = ("Unsupported OS for launching app!" : String).data := by
    rw [heq]
  have h2 : ("Detected OS: " ++ os).data = 'D' :: ("etected OS: ".data ++ os.data) := rfl
  have h3 : ("Unsupported OS for launching app!" : String).data.head? = some 'U' := rfl
  rw [h2] at h1
  rw [← h1] at h3
  simp at h3

/-- The element List.find? returns sits no later than any other element
satisfying the predicate. -/
theorem find?_indexOf_le {α : Type} [DecidableEq α] {p : α → Bool} :
    ∀ {l : List α} {a b : α}, l.find? p = some a → b ∈ l → p b = true →
      l.indexOf a ≤ l.indexOf b := by
  intro l
  induction l with
  | nil => intro a b hf; simp at hf
  | cons x xs ih =>
    intro a b hf hb hpb
    by_cases hx : p x
    · rw [List.find?_cons_of_pos _ hx] at hf
      injection hf with hxa
      subst hxa
      simp [List.indexOf_cons_self]
    · rw [List.find?_cons_of_neg _ hx] at hf
      have hpa : p a = true := List.find?_some hf
      have hxa : x ≠ a := by rintro rfl; rw [hpa] at hx; exact hx rfl
      have hxb : x ≠ b := by rintro rfl; rw [hpb] at hx; exact hx rfl
      rcases List.mem_cons.1 hb with rfl | hb2
      · exact absurd rfl hxb
      · rw [List.indexOf_cons_ne _ hxa, List.indexOf_cons_ne _ hxb]
        exact Nat.succ_le_succ (ih hf hb2 hpb)

/-- C1 counterexample: on the unknown OS tag freebsd, launchApp spawns
nothing, but it also never logs the fallback-branch message the claim
promises — detectBrowsers returns undefined, so the if-block is skipped
and tryDefaultBrowser stays false, leaving the fallback branch unreached. -/
theorem C1_counterexample :
    (launchApp hostNone "freebsd" "example.com").spawned = none
    ∧ "Unsupported OS for launching app!" ∉ (launchApp hostNone "freebsd" "example.com").logs
    ∧ (launchApp hostNone "freebsd" "example.com").logs =
        ["Unsupported OS", "Detected OS: freebsd", "Detected browsers: None"] := by
  refine ⟨by decide, ?_, by decide⟩
  decide

/-- C1 amended: on an OS tag outside win32, darwin, linux, no spawn is
attempted and Unsupported OS is logged (by detectBrowsers), but the
default-browser fallback branch is never reached, so its message
Unsupported OS for launching app! is not logged. -/
theorem C1_unsupported_os (h : HostState) (os url : String)
    (h1 : os ≠ "win32") (h2 : os ≠ "darwin") (h3 : os ≠ "linux") :
    (launchApp h os url).spawned = none
    ∧ "Unsupported OS" ∈ (launchApp h os url).logs
    ∧ "Unsupported OS for launching app!" ∉ (launchApp h os url).logs := by
  have hdet : detectBrowsersT jsTables h os = (["Unsupported OS"], none) := by
    simp [detectBrowsersT, h1, h2, h3]
  refine ⟨?_, ?_, ?_⟩
  · simp [launchApp, launchAppT, hdet]
  · simp [launchApp, launchAppT, hdet]
  · simp [launchApp, launchAppT, hdet]
    exact fun heq => detectedOsLog_ne os heq.symm

/-- Witness for C1 on the concrete OS tag freebsd. -/
theorem C1_witness :
    (launchApp hostNone "freebsd" "u").spawned = none
    ∧ "Unsupported OS" ∈ (launchApp hostNone "freebsd" "u").logs
    ∧ "Unsupported OS for launching app!" ∉ (launchApp hostNone "freebsd" "u").logs :=
  C1_unsupported_os hostNone "freebsd" "u" (by decide) (by decide) (by decide)

/-- C2 counterexample: on a Linux host where firefox and google-chrome
both resolve on PATH but chromium does not, the compiled src/index.js
selects Firefox while the TypeScript src/unnamed/part_000 selects Chrome,
so the spawned commands differ. -/
theorem C2_counterexample :
    (launchAppT jsTables hostFirefoxChrome "linux" "https://e.com").spawned =
      some "\"firefox\" --app=\"https://e.com\" --window-size=960,800 --new-window --user-data-dir=\"/tmp/temp-profile\""
    ∧ (launchAppT tsTables hostFirefoxChrome "linux" "https://e.com").spawned =
      some "\"google-chrome\" --app=\"https://e.com\" --window-size=960,800 --new-window --user-data-dir=\"/tmp/temp-profile\""
    ∧ (launchAppT jsTables hostFirefoxChrome "linux" "https://e.com").spawned ≠
      (launchAppT tsTables hostFirefoxChrome "linux" "https://e.com").spawned := by
  refine ⟨by decide, by decide, ?_⟩
  decide

/-- C2 amended: the two builds agree on every host state when the OS is
win32 or darwin (their windows and darwin catalogs and preference lists
are identical); their linux catalog order and linux preference list
differ, so on Linux they can select different browsers. -/
theorem C2_agree_on_win32_darwin (h : HostState) (os url : String)
    (hos : os = "win32" ∨ os = "darwin") :
    launchAppT jsTables h os url = launchAppT tsTables h os url
    ∧ detectBrowsersT jsTables h os = detectBrowsersT tsTables h os := by
  rcases hos with rfl | rfl <;> exact ⟨rfl, rfl⟩

/-- Witness for C2 amended on win32 with an everything-missing host. -/
theorem C2_witness :
    launchAppT jsTables hostNone "win32" "example.com" =
      launchAppT tsTables hostNone "win32" "example.com"
    ∧ detectBrowsersT jsTables hostNone "win32" = detectBrowsersT tsTables hostNone "win32" :=
  C2_agree_on_win32_darwin hostNone "win32" "example.com" (Or.inl rfl)

set_option maxRecDepth 4000 in
/-- C3: on Linux the Firefox descriptor's locator is the lowercase
firefox, the case-sensitive includes-Firefox test fails on it, and the
constructed command is the Chromium-style app command, never the
Firefox-style width/height one; checked concretely on a launched run. -/
theorem C3_linux_firefox_gets_chromium_style (url : String) :
    strContains "firefox" "Firefox" = false
    ∧ mkLaunchCmd "linux" ⟨"Firefox", "firefox"⟩ url =
        "\"firefox\" --app=\"" ++ url ++ "\" --window-size=960,800 --new-window --user-data-dir=\"/tmp/temp-profile\""
    ∧ (launchApp hostOnlyFirefox "linux" "example.com").spawned =
        some "\"firefox\" --app=\"https://example.com\" --window-size=960,800 --new-window --user-data-dir=\"/tmp/temp-profile\""
    ∧ strContains "\"firefox\" --app=\"https://example.com\" --window-size=960,800 --new-window --user-data-dir=\"/tmp/temp-profile\"" "--app=\"https://example.com\"" = true
    ∧ strContains "\"firefox\" --app=\"https://example.com\" --window-size=960,800 --new-window --user-data-dir=\"/tmp/temp-profile\"" "--window-size=960,800" = true
    ∧ strContains "\"firefox\" --app=\"https://example.com\" --window-size=960,800 --new-window --user-data-dir=\"/tmp/temp-profile\"" "--new-window" = true
    ∧ strContains "\"firefox\" --app=\"https://example.com\" --window-size=960,800 --new-window --user-data-dir=\"/tmp/temp-profile\"" "--user-data-dir=\"/tmp/temp-profile\"" = true
    ∧ strContains "\"firefox\" --app=\"https://example.com\" --window-size=960,800 --new-window --user-data-dir=\"/tmp/temp-profile\"" "--width=" = false
    ∧ strContains "\"firefox\" --app=\"https://example.com\" --window-size=960,800 --new-window --user-data-dir=\"/tmp/temp-profile\"" "--height=" = false := by
  refine ⟨by decide, ?_, by decide, by decide, by decide, by decide, by decide, by decide, by decide⟩
  have hff : strContains "firefox" "Firefox" = false := by decide
  simp [mkLaunchCmd, hff]

/-- C4: on a supported OS with an empty detected-browser list, launchApp
spawns exactly the per-OS default-browser command on the normalised URL
and constructs no browser command. -/
theorem C4_empty_detection_uses_default (h : HostState) (os url : String)
    (hdet : (detectBrowsers h os).2 = some []) :
    (os = "win32" → (launchApp h os url).spawned =
        some ("start \"\" \"" ++ normalizeUrl url ++ "\""))
    ∧ (os = "darwin" → (launchApp h os url).spawned =
        some ("open \"" ++ normalizeUrl url ++ "\""))
    ∧ (os = "linux" → (launchApp h os url).spawned =
        some ("xdg-open \"" ++ normalizeUrl url ++ "\"")) := by
  refine ⟨?_, ?_, ?_⟩ <;> intro hos <;> subst hos <;>
    simp [detectBrowsers, detectBrowsersT, jsTables] at hdet <;>
    simp [launchApp, launchAppT, detectBrowsersT, hdet, selectBrowser, defaultBrowserBranch,
      jsTables, jsPreferredBrowsers, List.find?]

/-- Witness for C4: a Linux host on which no probe succeeds. -/
theorem C4_witness :
    (detectBrowsers hostNone "linux").2 = some []
    ∧ (launchApp hostNone "linux" "example.com").spawned =
        some ("xdg-open \"" ++ normalizeUrl "example.com" ++ "\"") :=
  ⟨by decide, (C4_empty_detection_uses_default hostNone "linux" "example.com" (by decide)).2.2 rfl⟩

/-- C5: if two browsers are both detected and both named in the
preference list, the selection step picks a browser at least as early in
the preference list as the earlier of the two, and never the later one;
detection order plays no role. -/
theorem C5_preference_precedence (prefs : List String) (detected : List Browser)
    (b1 b2 : Browser) (h1 : b1 ∈ detected) (h2 : b2 ∈ detected)
    (hp1 : b1.name ∈ prefs) (hp2 : b2.name ∈ prefs)
    (hlt : prefs.indexOf b1.name < prefs.indexOf b2.name) :
    ∃ b, selectBrowser prefs detected = some b
      ∧ prefs.indexOf b.name ≤ prefs.indexOf b1.name
      ∧ b.name ≠ b2.name := by
  have hpred1 : (fun name => detected.any (fun b => b.name = name)) b1.name = true := by
    simp only [List.any_eq_true, decide_eq_true_eq]
    exact ⟨b1, h1, rfl⟩
  obtain ⟨n0, hfind⟩ : ∃ n0, prefs.find? (fun name => detected.any (fun b => b.name = name)) = some n0 := by
    cases hcase : prefs.find? (fun name => detected.any (fun b => b.name = name)) with
    | none => exact absurd hpred1 (by simpa using List.find?_eq_none.1 hcase b1.name hp1)
    | some n0 => exact ⟨n0, rfl⟩
  have hpn0 : detected.any (fun b => decide (b.name = n0)) = true := by
    have h0 := List.find?_some hfind
    simpa using h0
  have hidx0 : prefs.indexOf n0 ≤ prefs.indexOf b1.name :=
    find?_indexOf_le hfind hp1 hpred1
  obtain ⟨b, hbfind⟩ : ∃ b, detected.find? (fun b => b.name = n0) = some b := by
    simp only [List.any_eq_true, decide_eq_true_eq] at hpn0
    obtain ⟨bb, hbb, hbbn⟩ := hpn0
    cases hcase : detected.find? (fun b => b.name = n0) with
    | none =>
        have := List.find?_eq_none.1 hcase bb hbb
        simp [hbbn] at this
    | some b => exact ⟨b, rfl⟩
  have hbn : b.name = n0 := by
    have := List.find?_some hbfind
    simpa using this
  refine ⟨b, ?_, ?_, ?_⟩
  · simp only [selectBrowser, hfind, hbfind]
  · rw [hbn]; exact hidx0
  · intro heq
    have : prefs.indexOf b2.name ≤ prefs.indexOf b1.name := by
      rw [← heq, hbn]; exact hidx0
    omega

/-- Witness for C5: Brave detected before Firefox on Linux, yet Firefox
(earlier in the Linux preference list) is selected. -/
theorem C5_witness :
    ∃ b, selectBrowser (jsPreferredBrowsers "linux")
        [⟨"Brave", "brave-browser"⟩, ⟨"Firefox", "firefox"⟩] = some b
      ∧ (jsPreferredBrowsers "linux").indexOf b.name ≤
          (jsPreferredBrowsers "linux").indexOf (Browser.name ⟨"Firefox", "firefox"⟩)
      ∧ b.name ≠ (Browser.name ⟨"Brave", "brave-browser"⟩) :=
  C5_preference_precedence (jsPreferredBrowsers "linux")
    [⟨"Brave", "brave-browser"⟩, ⟨"Firefox", "firefox"⟩]
    ⟨"Firefox", "firefox"⟩ ⟨"Brave", "brave-browser"⟩
    (by decide) (by decide) (by decide) (by decide) (by decide)

/-- C6: URL normalisation: input starting with http is unchanged, else
localhost-prefixed input gets http, else https; concrete examples. -/
theorem C6_url_normalization :
    (∀ u, strStartsWith u "http" = true → normalizeUrl u = u)
    ∧ (∀ u, strStartsWith u "http" = false → strStartsWith u "localhost" = true →
        normalizeUrl u = "http://" ++ u)
    ∧ (∀ u, strStartsWith u "http" = false → strStartsWith u "localhost" = false →
        normalizeUrl u = "https://" ++ u)
    ∧ normalizeUrl "httpfoo.com" = "httpfoo.com"
    ∧ normalizeUrl "example.com" = "https://example.com"
    ∧ normalizeUrl "localhost:3000" = "http://localhost:3000"
    ∧ normalizeUrl "http://foo" = "http://foo"
    ∧ normalizeUrl "https://foo" = "https://foo" := by
  refine ⟨?_, ?_, ?_, by decide, by decide, by decide, by decide, by decide⟩
  · intro u h1; simp [normalizeUrl, h1]
  · intro u h1 h2; simp [normalizeUrl, h1, h2]
  · intro u h1 h2; simp [normalizeUrl, h1, h2]

/-- Witness for C6 at the input localhost:3000. -/
theorem C6_witness :
    strStartsWith "localhost:3000" "http" = false
    ∧ strStartsWith "localhost:3000" "localhost" = true
    ∧ normalizeUrl "localhost:3000" = "http://localhost:3000" :=
  ⟨by decide, by decide, C6_url_normalization.2.1 "localhost:3000" (by decide) (by decide)⟩

/-- C7: with a non-empty detected list none of whose names occur in the
preference list, the selection step falls back to the first detected
browser (detection/catalog order). -/
theorem C7_fallback_first_detected (prefs : List String) (detected : List Browser)
    (hne : detected ≠ []) (hmiss : ∀ b ∈ detected, b.name ∉ prefs) :
    selectBrowser prefs detected = detected.head?
    ∧ ∃ b0 rest, detected = b0 :: rest ∧ selectBrowser prefs detected = some b0 := by
  have hfind : prefs.find? (fun name => detected.any (fun b => b.name = name)) = none := by
    rw [List.find?_eq_none]
    intro n hn hany
    simp only [List.any_eq_true, decide_eq_true_eq] at hany
    obtain ⟨b, hb, hbn⟩ := hany
    exact hmiss b hb (hbn ▸ hn)
  have hsel : selectBrowser prefs detected = detected.head? := by
    simp only [selectBrowser, hfind]
  cases detected with
  | nil => exact absurd rfl hne
  | cons b0 rest => exact ⟨hsel, b0, rest, rfl, hsel⟩

/-- Witness for C7: a detected browser absent from the Linux preference
list is selected as the first detected entry. -/
theorem C7_witness :
    selectBrowser (jsPreferredBrowsers "linux") [⟨"Safari", "/Applications/Safari.app"⟩] =
      [(⟨"Safari", "/Applications/Safari.app"⟩ : Browser)].head?
    ∧ ∃ b0 rest, [(⟨"Safari", "/Applications/Safari.app"⟩ : Browser)] = b0 :: rest
      ∧ selectBrowser (jsPreferredBrowsers "linux") [⟨"Safari", "/Applications/Safari.app"⟩] = some b0 :=
  C7_fallback_first_detected (jsPreferredBrowsers "linux")
    [⟨"Safari", "/Applications/Safari.app"⟩] (by decide) (by decide)

set_option maxRecDepth 8000 in
/-- C8: for every browser in the Windows catalog, selecting the
Firefox-named one yields the width/height command with no app flag, and
selecting any other yields the app-mode command with the temp profile
dir; the 960 and 800 are the fixed constants of the source. Checked
concretely on the Firefox and Chrome catalog entries. -/
theorem C8_windows_command_shape (b : Browser) (hb : b ∈ jsWindowsBrowsers) (url : String) :
    (b.name = "Firefox" →
      mkLaunchCmd "win32" b url = "\"" ++ b.cmd ++ "\" \"" ++ url ++ "\" --width=960 --height=800")
    ∧ (b.name ≠ "Firefox" →
      mkLaunchCmd "win32" b url =
        "\"" ++ b.cmd ++ "\" --app=\"" ++ url ++ "\" --window-size=960,800 --new-window --user-data-dir=\"/tmp/temp-profile\"")
    ∧ strContains (mkLaunchCmd "win32" ⟨"Firefox", "C:\\Program Files\\Mozilla Firefox\\firefox.exe"⟩ "https://example.com")
        "--width=960 --height=800" = true
    ∧ strContains (mkLaunchCmd "win32" ⟨"Firefox", "C:\\Program Files\\Mozilla Firefox\\firefox.exe"⟩ "https://example.com")
        "--app=" = false
    ∧ strContains (mkLaunchCmd "win32" ⟨"Chrome", "C:\\Program Files\\Google\\Chrome\\Application\\chrome.exe"⟩ "https://example.com")
        "--app=\"https://example.com\"" = true
    ∧ strContains (mkLaunchCmd "win32" ⟨"Chrome", "C:\\Program Files\\Google\\Chrome\\Application\\chrome.exe"⟩ "https://example.com")
        "--user-data-dir=\"/tmp/temp-profile\"" = true := by
  refine ⟨?_, ?_, by decide, by decide, by decide, by decide⟩ <;> intro hname <;>
    fin_cases hb <;> simp_all <;> simp [mkLaunchCmd, strContains] <;>
    exact fun hc => absurd hc (by decide)

set_option maxRecDepth 8000 in
/-- Witness for C8: the Chrome and Firefox entries of the Windows catalog. -/
theorem C8_witness :
    mkLaunchCmd "win32" ⟨"Chrome", "C:\\Program Files\\Google\\Chrome\\Application\\chrome.exe"⟩ "https://example.com" =
      "\"" ++ "C:\\Program Files\\Google\\Chrome\\Application\\chrome.exe" ++ "\" --app=\"" ++ "https://example.com" ++
        "\" --window-size=960,800 --new-window --user-data-dir=\"/tmp/temp-profile\""
    ∧ mkLaunchCmd "win32" ⟨"Firefox", "C:\\Program Files\\Mozilla Firefox\\firefox.exe"⟩ "https://example.com" =
      "\"" ++ "C:\\Program Files\\Mozilla Firefox\\firefox.exe" ++ "\" \"" ++ "https://example.com" ++
        "\" --width=960 --height=800" :=
  ⟨(C8_windows_command_shape ⟨"Chrome", "C:\\Program Files\\Google\\Chrome\\Application\\chrome.exe"⟩
      (by decide) "https://example.com").2.1 (by decide),
   (C8_windows_command_shape ⟨"Firefox", "C:\\Program Files\\Mozilla Firefox\\firefox.exe"⟩
      (by decide) "https://example.com").1 rfl⟩

/-- C9: on each supported OS, detectBrowsers returns exactly the catalog
entries whose probe succeeded, in catalog order (a sublist of the
catalog, so nothing outside the catalog appears), and the which lookup
turns every failure into absence (it returns none or a non-empty path,
never an error). -/
theorem C9_detect_is_catalog_filter (h : HostState) (os : String)
    (hos : os = "win32" ∨ os = "darwin" ∨ os = "linux") :
    (detectBrowsers h os).2 = some ((catalogOf jsTables os).filter (probeOf h os))
    ∧ ((catalogOf jsTables os).filter (probeOf h os)).Sublist (catalogOf jsTables os)
    ∧ (∀ b ∈ (catalogOf jsTables os).filter (probeOf h os), b ∈ catalogOf jsTables os)
    ∧ (∀ c, which h c = none ∨ ∃ s, which h c = some s ∧ s ≠ "") := by
  refine ⟨?_, List.filter_sublist _, fun b hb => (List.filter_sublist _).subset hb, ?_⟩
  · rcases hos with rfl | rfl | rfl <;>
      simp [detectBrowsers, detectBrowsersT, catalogOf, probeOf, detectLoop_eq_filter] <;> rfl
  · intro c
    unfold which
    cases h.execWhich c with
    | error e => exact Or.inl rfl
    | ok out =>
        by_cases htrim : strTrim out = ""
        · exact Or.inl (by simp [htrim])
        · exact Or.inr ⟨strTrim out, by simp [htrim], htrim⟩

/-- Witness for C9 on a Linux host where only firefox resolves. -/
theorem C9_witness :
    (detectBrowsers hostOnlyFirefox "linux").2 =
      some ((catalogOf jsTables "linux").filter (probeOf hostOnlyFirefox "linux"))
    ∧ ((catalogOf jsTables "linux").filter (probeOf hostOnlyFirefox "linux")).Sublist
        (catalogOf jsTables "linux")
    ∧ (∀ b ∈ (catalogOf jsTables "linux").filter (probeOf hostOnlyFirefox "linux"),
        b ∈ catalogOf jsTables "linux")
    ∧ (∀ c, which hostOnlyFirefox c = none ∨ ∃ s, which hostOnlyFirefox c = some s ∧ s ≠ "") :=
  C9_detect_is_catalog_filter hostOnlyFirefox "linux" (Or.inr (Or.inr rfl))

/-- C10: with no positional arguments, start prints the usage message
(which contains No URL provided) to stderr and exits with code 1. -/
theorem C10_no_args_usage (h : HostState) (os : String) (argv : List String)
    (hargv : argv.drop 2 = []) :
    start h os argv = .usageError "No URL provided! Usage: npx oxr <url>" 1
    ∧ strContains "No URL provided! Usage: npx oxr <url>" "No URL provided" = true := by
  refine ⟨?_, by decide⟩
  simp [start, hargv]

/-- Witness for C10 on an argv holding only the interpreter and script. -/
theorem C10_witness :
    start hostNone "linux" ["node", "oxr"] = .usageError "No URL provided! Usage: npx oxr <url>" 1
    ∧ strContains "No URL provided! Usage: npx oxr <url>" "No URL provided" = true :=
  C10_no_args_usage hostNone "linux" ["node", "oxr"] (by decide)

end Oxrr

